import Mathlib

/-!
Shallow embedding of the arq-simul discrete-event ARQ simulator
(the compiled module tree `src/simulator/…`), together with theorems
settling the specification claims about it.

Modelling conventions:
* Rust `u64`/`u32`/`u16`/`usize` counters and sizes become `Nat`
  (the simulator never exercises wrap-around arithmetic).
* `eee_hyst::Time` becomes `ℚ` in seconds with `Time::from_secs` the
  identity; `f64` link arithmetic (`tx`, survival probabilities) is
  carried out exactly over `ℚ`.
* The thread-local random draw consumed by `AttachedLink::drop_packet`
  (`rand::thread_rng().gen::<f64>()`, a uniform value in `[0,1)`) is an
  explicit parameter `u`; it is *not* derived from the seeded generator
  owned by `Simulator` because the source never consults that generator.
* Rust `panic!` paths are modelled with `Option`.
* `BinaryHeap<Event>` is modelled as a `List Event` with the pop
  operation extracting an element maximal for the Rust `Ord` instance.
-/

namespace ArqSimul

/-- Logical time, `eee_hyst::Time`, modelled as exact rational seconds. -/
abbrev Time := ℚ

/-- Rust `network::address::Address`: a small integer handle. -/
abbrev Address := Nat

/-- The `TerminalAddress` alias is a synonym of `Address` (terminal.rs). -/
abbrev TerminalAddress := Address

/-- The `LinkAddress` alias is a synonym of `Address`. -/
abbrev LinkAddress := Address

/-- Rust `network::packet::Packet`: one immutable transmission unit. -/
structure Packet where
  seqno : Nat
  header_size : Nat
  payload_size : Nat
  src_addr : TerminalAddress
  dst_addr : TerminalAddress
deriving DecidableEq, Repr

/-- Rust `simulator::EventKind`: a packet delivery or a retransmission timer. -/
inductive EventKind where
  | payload (p : Packet)
  | timeout (seqno : Nat)
deriving DecidableEq, Repr

/-- Rust `EventKind::weigth` (sic): Payload 0, Timeout 1. -/
def EventKind.weigth : EventKind → Nat
  | .payload _ => 0
  | .timeout _ => 1

/-- Rust `simulator::Target`: the entity an event is addressed to. -/
inductive Target where
  | link (a : LinkAddress)
  | terminal (a : TerminalAddress)
deriving DecidableEq, Repr

/-- Rust `simulator::Event`. -/
structure Event where
  due_time : Time
  target : Target
  kind : EventKind
deriving DecidableEq, Repr

/-- Rust `u64::cmp` on times, mirrored on `ℚ`. -/
def cmpTime (a b : Time) : Ordering :=
  if a < b then .lt else if a = b then .eq else .gt

/-- Rust `impl Ord for EventKind`: compare the weights. -/
def EventKind.cmpRust (a b : EventKind) : Ordering :=
  compare a.weigth b.weigth

/-- Rust `impl Ord for Event`: reversed time order (so that Rust's max-heap
pops earliest first), tie-broken by the reversed kind order. -/
def Event.cmpRust (s o : Event) : Ordering :=
  (cmpTime o.due_time s.due_time).then (EventKind.cmpRust o.kind s.kind)

/-- Rust `impl PartialEq for Event`: equality looks only at `due_time`. -/
def Event.eqRust (a b : Event) : Bool :=
  a.due_time == b.due_time

/-- The strict priority order under which the scheduler pops events:
`a` is served strictly before `b`. -/
def Event.earlier (a b : Event) : Prop :=
  a.due_time < b.due_time ∨
    (a.due_time = b.due_time ∧ a.kind.weigth < b.kind.weigth)

instance (a b : Event) : Decidable (a.earlier b) := by
  unfold Event.earlier; infer_instance

/-- Rust `Simulator` (scheduler): the event queue, plus the seeded generator
state.  The generator state is a pure token: no embedded operation ever
reads it, because no operation of the compiled source does. -/
structure Simulator where
  event_queue : List Event
  rng : Nat
deriving DecidableEq

/-- Rust `Simulator::from_seed`. -/
def Simulator.from_seed (seed : Nat) : Simulator :=
  { event_queue := [], rng := seed }

/-- Rust `Simulator::add_events` (`BinaryHeap::extend`). -/
def Simulator.add_events (s : Simulator) (events : List Event) : Simulator :=
  { s with event_queue := s.event_queue ++ events }

/-- The element a Rust `BinaryHeap` pop selects: maximal under
`Event.cmpRust`, obtained by a left fold. -/
def selectBest (h : Event) (t : List Event) : Event :=
  t.foldl (fun b e => if e.cmpRust b = .gt then e else b) h

/-- Rust `Simulator::pop`: remove and return a maximal element of the heap
(equivalently, an event no other queued event is served before). -/
def Simulator.pop (s : Simulator) : Option (Event × Simulator) :=
  match s.event_queue with
  | [] => none
  | h :: t =>
    let best := selectBest h t
    some (best, { s with event_queue := (h :: t).erase best })

/-! ### The Rust comparator versus the priority order -/

theorem cmpRust_eq_gt_iff (s o : Event) :
    s.cmpRust o = .gt ↔ s.earlier o := by
  unfold Event.cmpRust cmpTime Event.earlier EventKind.cmpRust
  rcases lt_trichotomy s.due_time o.due_time with h | h | h
  · rw [if_neg (lt_asymm h), if_neg h.ne.symm]
    simp [Ordering.then, h]
  · rw [if_neg (by rw [h]; exact lt_irrefl _), if_pos h.symm]
    simp only [Ordering.then, h, lt_self_iff_false, false_or, true_and,
      Nat.compare_eq_gt]
  · rw [if_pos h]
    simp only [Ordering.then]
    constructor
    · intro hcc
      exact absurd hcc (by decide)
    · rintro (hcc | ⟨hcc, -⟩)
      · exact absurd hcc (lt_asymm h)
      · exact absurd hcc h.ne.symm

theorem earlier_trans {a b c : Event} (h₁ : a.earlier b) (h₂ : b.earlier c) :
    a.earlier c := by
  rcases h₁ with h₁ | ⟨h₁, h₁w⟩ <;> rcases h₂ with h₂ | ⟨h₂, h₂w⟩
  · exact Or.inl (h₁.trans h₂)
  · exact Or.inl (h₂ ▸ h₁)
  · exact Or.inl (h₁ ▸ h₂)
  · exact Or.inr ⟨h₁.trans h₂, h₁w.trans h₂w⟩

theorem earlier_irrefl (a : Event) : ¬ a.earlier a := by
  unfold Event.earlier; simp

theorem earlier_of_not_earlier {a b c : Event}
    (h₁ : ¬ a.earlier b) (h₂ : a.earlier c) : b.earlier c := by
  unfold Event.earlier at h₁ h₂ ⊢
  push_neg at h₁
  obtain ⟨hba, hw⟩ := h₁
  rcases h₂ with h₂ | ⟨h₂, h₂w⟩
  · exact Or.inl (lt_of_le_of_lt hba h₂)
  · rcases eq_or_lt_of_le hba with he | he
    · exact Or.inr ⟨he ▸ h₂, lt_of_le_of_lt (hw he.symm) h₂w⟩
    · exact Or.inl (h₂ ▸ he)

theorem selectBest_cons (h y : Event) (ys : List Event) :
    selectBest h (y :: ys) = selectBest (if y.cmpRust h = .gt then y else h) ys :=
  rfl

/-- The fold `selectBest` returns one of its candidates, and no candidate is
served strictly before it. -/
theorem selectBest_spec (t : List Event) : ∀ h : Event,
    (selectBest h t = h ∨ selectBest h t ∈ t) ∧
      ∀ x, (x = h ∨ x ∈ t) → ¬ x.earlier (selectBest h t) := by
  induction t with
  | nil =>
    intro h
    refine ⟨Or.inl rfl, ?_⟩
    rintro x (rfl | hx)
    · exact earlier_irrefl x
    · cases hx
  | cons y ys ih =>
    intro h
    rw [selectBest_cons]
    obtain ⟨hmem, hmax⟩ := ih (if y.cmpRust h = .gt then y else h)
    constructor
    · by_cases hc : y.cmpRust h = .gt
      · rw [if_pos hc] at hmem ⊢
        rcases hmem with h1 | h1
        · rw [h1]
          exact Or.inr (List.mem_cons_self y ys)
        · exact Or.inr (List.mem_cons_of_mem y h1)
      · rw [if_neg hc] at hmem ⊢
        rcases hmem with h1 | h1
        · exact Or.inl h1
        · exact Or.inr (List.mem_cons_of_mem y h1)
    · intro x hx
      rcases hx with rfl | hx
      · by_cases hc : y.cmpRust x = .gt
        · have hyx : y.earlier x := (cmpRust_eq_gt_iff y x).mp hc
          intro hcon
          exact hmax y (Or.inl (by rw [if_pos hc])) (earlier_trans hyx hcon)
        · exact hmax x (Or.inl (by rw [if_neg hc]))
      · rcases List.mem_cons.mp hx with rfl | hx2
        · by_cases hc : x.cmpRust h = .gt
          · exact hmax x (Or.inl (by rw [if_pos hc]))
          · have hxh : ¬ x.earlier h := fun hcc => hc ((cmpRust_eq_gt_iff x h).mpr hcc)
            intro hcon
            exact hmax h (Or.inl (by rw [if_neg hc])) (earlier_of_not_earlier hxh hcon)
        · exact hmax x (Or.inr hx2)

/-! ### Link (physical layer), `simulator/network/link.rs` -/

/-- Rust `link::datacounter::DataCounter`: byte totals at the link-entry and
successful-delivery checkpoints.  Field names follow the accessors used
by `link.rs` (`raw_received`, …); the arithmetic is that of
`DataCounter::delivered_packet` and its entry-side counterpart. -/
structure DataCounter where
  raw_received : Nat
  good_received : Nat
  raw_delivered : Nat
  good_delivered : Nat
deriving DecidableEq, Repr

/-- Rust `DataCounter::default()`. -/
def DataCounter.default : DataCounter := ⟨0, 0, 0, 0⟩

/-- Raw byte size of a packet: header plus payload. -/
def rawBytes (p : Packet) : Nat := p.header_size + p.payload_size

/-- Good byte size of a packet: payload only. -/
def goodBytes (p : Packet) : Nat := p.payload_size

/-- Rust `DataCounter::received_packet`: advance the link-entry counters. -/
def DataCounter.received_packet (c : DataCounter) (p : Packet) : DataCounter :=
  { c with raw_received := c.raw_received + rawBytes p,
           good_received := c.good_received + goodBytes p }

/-- Rust `DataCounter::delivered_packet`: advance the delivery counters. -/
def DataCounter.delivered_packet (c : DataCounter) (p : Packet) : DataCounter :=
  { c with raw_delivered := c.raw_delivered + rawBytes p,
           good_delivered := c.good_delivered + goodBytes p }

/-- Rust `link::AttachedLink`. -/
structure AttachedLink where
  src_addr : TerminalAddress
  dst_addr : TerminalAddress
  capacity : ℚ
  propagation_delay : Time
  bit_error_rate : ℚ
  last_tx_from_src : Time
  last_tx_from_dst : Time
  counter : DataCounter
deriving DecidableEq, Repr

/-- Rust `AttachedLink::drop_packet`.  The uniform draw `u` is the value of
`rand::thread_rng().gen::<f64>()`, a thread-local source unrelated to the
scheduler's seeded generator; the packet is dropped when the draw
exceeds the survival probability `(1 − ber)^bits`. -/
def AttachedLink.drop_packet (l : AttachedLink) (p : Packet) (u : ℚ) : Bool :=
  decide ((1 - l.bit_error_rate) ^ (8 * (p.header_size + p.payload_size)) < u)

/-- Rust `AttachedLink::tx`: serialization time of a packet. -/
def AttachedLink.tx (l : AttachedLink) (p : Packet) : Time :=
  (8 * (p.header_size + p.payload_size) : ℚ) / l.capacity

/-- Rust `AttachedLink::calc_timeout`. -/
def AttachedLink.calc_timeout (l : AttachedLink) (p : Packet) : Time :=
  l.tx { p with payload_size := 0 } + l.propagation_delay + l.propagation_delay

/-- Rust `AttachedLink::process`: one `Payload` event enters the link; a
`Timeout` event at a link is a panic (`none`).  `u` is the thread-local
random draw consumed by `drop_packet`. -/
def AttachedLink.process (l : AttachedLink) (e : Event) (now : Time) (u : ℚ) :
    Option (AttachedLink × List Event) :=
  match e.kind with
  | .payload p =>
    let l₁ := { l with counter := l.counter.received_packet p }
    if l₁.drop_packet p u then
      some (l₁, [])
    else
      some ({ l₁ with counter := l₁.counter.delivered_packet p },
        [{ due_time := now + l.propagation_delay,
           target := Target.terminal p.dst_addr,
           kind := .payload p }])
  | .timeout _ => none

/-! ### Terminal (ARQ state machine), `simulator/network/terminal.rs` -/

/-- Rust `terminal::Terminal`: configuration before attachment. -/
structure Terminal where
  header_size : Nat
  payload_size : Nat
  tx_window : Nat
deriving DecidableEq, Repr

/-- Rust `Terminal::create`. -/
def Terminal.create (header_size payload_size tx_window : Nat) : Terminal :=
  { header_size, payload_size, tx_window }

/-- Rust `terminal::AttachedTerminal`. -/
structure AttachedTerminal where
  addr : TerminalAddress
  header_size : Nat
  payload_size : Nat
  tx_window : Nat
  link_addr : LinkAddress
  last_acked : Nat
  last_sent : Nat
  last_recv : Nat
  last_tx_sched : Time
deriving DecidableEq, Repr

/-- Rust `Terminal::attach_to_link`: the initial protocol state
(`last_acked = 0`, `last_sent = tx_window`, `last_recv = 0`). -/
def Terminal.attach_to_link (t : Terminal) (self_addr : TerminalAddress)
    (link_addr : LinkAddress) : AttachedTerminal :=
  { addr := self_addr
    link_addr
    header_size := t.header_size
    payload_size := t.payload_size
    tx_window := t.tx_window
    last_acked := 0
    last_sent := t.tx_window
    last_recv := 0
    last_tx_sched := 0 }

/-- Rust `AttachedTerminal::get_dst_address`: the other endpoint of the link. -/
def AttachedTerminal.get_dst_address (t : AttachedTerminal)
    (link : AttachedLink) : TerminalAddress :=
  if t.addr = link.src_addr then link.dst_addr else link.src_addr

/-- Rust `AttachedTerminal::start`: one staggered `Timeout(seqno)` per
`seqno` in `1..=last_sent`, due at `now + seqno` raw time units. -/
def AttachedTerminal.start (t : AttachedTerminal) (now : Time) : List Event :=
  (List.range' 1 t.last_sent).map fun (seqno : Nat) =>
    { due_time := now + (seqno : ℚ)
      target := Target.terminal t.addr
      kind := .timeout seqno }

/-- Rust `AttachedTerminal::advance_delivery_time`: the terminal-local
serialization queue; returns the updated terminal and the slot time. -/
def AttachedTerminal.advance_delivery_time (t : AttachedTerminal)
    (link : AttachedLink) (p : Packet) (now : Time) : AttachedTerminal × Time :=
  let sched := max now t.last_tx_sched + link.tx p
  ({ t with last_tx_sched := sched }, sched)

/-- Rust `AttachedTerminal::transmit`: build the packet, book the output
slot, emit the retransmission timer (DATA only) and the link event. -/
def AttachedTerminal.transmit (t : AttachedTerminal) (seqno : Nat)
    (dst_addr : TerminalAddress) (now : Time) (payload_size : Nat)
    (link : AttachedLink) : AttachedTerminal × List Event :=
  let p : Packet :=
    { seqno
      header_size := t.header_size
      payload_size
      src_addr := t.addr
      dst_addr }
  let (t₁, delivery_time) := t.advance_delivery_time link p now
  let timeoutEvents : List Event :=
    if 0 < payload_size then
      [{ due_time := delivery_time + link.calc_timeout p
         target := Target.terminal t.addr
         kind := .timeout seqno }]
    else []
  (t₁, timeoutEvents ++
    [{ due_time := delivery_time
       target := Target.link t.link_addr
       kind := .payload p }])

/-- The sequential transmission of a list of sequence numbers, as
performed by the mutable iteration inside `process_ack`. -/
def transmitRun (t : AttachedTerminal) (seqnos : List Nat)
    (dst_addr : TerminalAddress) (now : Time) (payload_size : Nat)
    (link : AttachedLink) : AttachedTerminal × List Event :=
  match seqnos with
  | [] => (t, [])
  | s :: rest =>
    let (t₁, evs₁) := t.transmit s dst_addr now payload_size link
    let (t₂, evs₂) := transmitRun t₁ rest dst_addr now payload_size link
    (t₂, evs₁ ++ evs₂)

/-- Rust `AttachedTerminal::process_timeout`. -/
def AttachedTerminal.process_timeout (t : AttachedTerminal)
    (dst_addr : TerminalAddress) (seqno : Nat) (now : Time)
    (link : AttachedLink) : AttachedTerminal × List Event :=
  if t.last_acked < seqno then
    t.transmit seqno dst_addr now t.payload_size link
  else
    (t, [])

/-- Rust `AttachedTerminal::process_ack`: cumulative acknowledgment and
window slide, for `(last_sent, last_acked + tx_window]`. -/
def AttachedTerminal.process_ack (t : AttachedTerminal) (p : Packet)
    (now : Time) (link : AttachedLink) : AttachedTerminal × List Event :=
  if t.last_acked < p.seqno ∧ p.seqno ≤ t.last_sent then
    let t₁ := { t with last_acked := p.seqno }
    let seqnos := List.range' (t₁.last_sent + 1)
      (t₁.last_acked + t₁.tx_window - t₁.last_sent)
    let (t₂, evs) := transmitRun t₁ seqnos p.src_addr now t₁.payload_size link
    ({ t₂ with last_sent := t₂.last_acked + t₂.tx_window }, evs)
  else
    (t, [])

/-- Rust `AttachedTerminal::process_data`: go-back-N receiver discipline. -/
def AttachedTerminal.process_data (t : AttachedTerminal) (p : Packet)
    (now : Time) (link : AttachedLink) : AttachedTerminal × List Event :=
  if p.seqno ≤ t.last_recv + 1 then
    let t₁ := { t with last_recv := max t.last_recv p.seqno }
    t₁.transmit p.seqno p.src_addr now 0 link
  else
    (t, [])

/-- Rust `AttachedTerminal::process`: dispatch on the event kind, with the
zero-payload test separating ACK from DATA. -/
def AttachedTerminal.process (t : AttachedTerminal) (e : Event)
    (now : Time) (link : AttachedLink) : AttachedTerminal × List Event :=
  match e.kind with
  | .payload p =>
    if p.payload_size = 0 then t.process_ack p now link
    else t.process_data p now link
  | .timeout seqno =>
    t.process_timeout (t.get_dst_address link) seqno now link

/-- Rust `AttachedTerminal::get_transmitted_packets`. -/
def AttachedTerminal.get_transmitted_packets (t : AttachedTerminal) : Nat :=
  t.last_acked

/-- The seqno of a link-targeted `Payload` event: the observable
transmissions a terminal hands to the link. -/
def linkPayloadSeqno (e : Event) : Option Nat :=
  match e.target, e.kind with
  | Target.link _, .payload p => some p.seqno
  | _, _ => none

/-- The states an attached terminal can reach from its initial
`attach_to_link` state through arbitrary `process` calls. -/
inductive ReachableTerminal : AttachedTerminal → Prop where
  | init (term : Terminal) (self_addr : TerminalAddress)
      (link_addr : LinkAddress) :
      ReachableTerminal (term.attach_to_link self_addr link_addr)
  | step (t : AttachedTerminal) (e : Event) (now : Time)
      (link : AttachedLink) :
      ReachableTerminal t → ReachableTerminal (t.process e now link).1

/-! ### Reduction and preservation lemmas for the terminal -/

theorem transmit_fst (t : AttachedTerminal) (s : Nat) (dst : TerminalAddress)
    (now : Time) (psz : Nat) (link : AttachedLink) :
    (t.transmit s dst now psz link).1 =
      { t with last_tx_sched := max now t.last_tx_sched +
          link.tx { seqno := s, header_size := t.header_size,
                    payload_size := psz, src_addr := t.addr,
                    dst_addr := dst } } :=
  rfl

theorem transmit_snd (t : AttachedTerminal) (s : Nat) (dst : TerminalAddress)
    (now : Time) (psz : Nat) (link : AttachedLink) :
    (t.transmit s dst now psz link).2 =
      (if 0 < psz then
        [{ due_time := (max now t.last_tx_sched +
              link.tx { seqno := s, header_size := t.header_size,
                        payload_size := psz, src_addr := t.addr,
                        dst_addr := dst }) +
              link.calc_timeout { seqno := s, header_size := t.header_size,
                                  payload_size := psz, src_addr := t.addr,
                                  dst_addr := dst }
           target := Target.terminal t.addr
           kind := .timeout s }]
      else []) ++
      [{ due_time := max now t.last_tx_sched +
            link.tx { seqno := s, header_size := t.header_size,
                      payload_size := psz, src_addr := t.addr,
                      dst_addr := dst }
         target := Target.link t.link_addr
         kind := .payload { seqno := s, header_size := t.header_size,
                            payload_size := psz, src_addr := t.addr,
                            dst_addr := dst } }] :=
  rfl

theorem transmit_fields (t : AttachedTerminal) (s : Nat)
    (dst : TerminalAddress) (now : Time) (psz : Nat) (link : AttachedLink) :
    (t.transmit s dst now psz link).1.last_acked = t.last_acked ∧
    (t.transmit s dst now psz link).1.last_sent = t.last_sent ∧
    (t.transmit s dst now psz link).1.last_recv = t.last_recv ∧
    (t.transmit s dst now psz link).1.tx_window = t.tx_window ∧
    (t.transmit s dst now psz link).1.payload_size = t.payload_size ∧
    (t.transmit s dst now psz link).1.header_size = t.header_size ∧
    (t.transmit s dst now psz link).1.addr = t.addr ∧
    (t.transmit s dst now psz link).1.link_addr = t.link_addr :=
  ⟨rfl, rfl, rfl, rfl, rfl, rfl, rfl, rfl⟩

/-- Each `transmit` contributes exactly one link-targeted `Payload`
event, carrying the transmitted sequence number. -/
theorem transmit_filterMap (t : AttachedTerminal) (s : Nat)
    (dst : TerminalAddress) (now : Time) (psz : Nat) (link : AttachedLink) :
    ((t.transmit s dst now psz link).2).filterMap linkPayloadSeqno = [s] := by
  rw [transmit_snd]
  by_cases h : 0 < psz
  · simp [h, linkPayloadSeqno]
  · simp [h, linkPayloadSeqno]

theorem transmitRun_fields (seqnos : List Nat) : ∀ (t : AttachedTerminal)
    (dst : TerminalAddress) (now : Time) (psz : Nat) (link : AttachedLink),
    (transmitRun t seqnos dst now psz link).1.last_acked = t.last_acked ∧
    (transmitRun t seqnos dst now psz link).1.last_sent = t.last_sent ∧
    (transmitRun t seqnos dst now psz link).1.last_recv = t.last_recv ∧
    (transmitRun t seqnos dst now psz link).1.tx_window = t.tx_window := by
  induction seqnos with
  | nil => intro t dst now psz link; exact ⟨rfl, rfl, rfl, rfl⟩
  | cons s rest ih =>
    intro t dst now psz link
    obtain ⟨h1, h2, h3, h4⟩ :=
      ih (t.transmit s dst now psz link).1 dst now psz link
    obtain ⟨g1, g2, g3, g4, -⟩ := transmit_fields t s dst now psz link
    refine ⟨?_, ?_, ?_, ?_⟩ <;>
      simp only [transmitRun, h1, h2, h3, h4, g1, g2, g3, g4]

/-- The link-targeted `Payload` events produced by a `transmitRun`
carry exactly the given sequence numbers, in order. -/
theorem transmitRun_filterMap (seqnos : List Nat) : ∀ (t : AttachedTerminal)
    (dst : TerminalAddress) (now : Time) (psz : Nat) (link : AttachedLink),
    ((transmitRun t seqnos dst now psz link).2).filterMap linkPayloadSeqno =
      seqnos := by
  induction seqnos with
  | nil => intro t dst now psz link; rfl
  | cons s rest ih =>
    intro t dst now psz link
    simp only [transmitRun, List.filterMap_append, transmit_filterMap,
      ih (t.transmit s dst now psz link).1 dst now psz link,
      List.singleton_append]

/-! ### Claim C10: Event equality versus the scheduler order -/

/-- C10: `PartialEq` on `Event` compares only `due_time`, so two events
with equal due times but different kinds (here a `Payload` and a
`Timeout`) are `==` while `cmp` does not return `Equal` on them, and
they are genuinely different events. -/
theorem C10_event_equality_inconsistent_with_order :
    Event.eqRust
        { due_time := 3, target := Target.terminal 0,
          kind := .payload { seqno := 1, header_size := 2, payload_size := 3,
                             src_addr := 0, dst_addr := 1 } }
        { due_time := 3, target := Target.terminal 0, kind := .timeout 9 } =
      true ∧
    Event.cmpRust
        { due_time := 3, target := Target.terminal 0,
          kind := .payload { seqno := 1, header_size := 2, payload_size := 3,
                             src_addr := 0, dst_addr := 1 } }
        { due_time := 3, target := Target.terminal 0, kind := .timeout 9 } ≠
      Ordering.eq ∧
    ({ due_time := 3, target := Target.terminal 0,
       kind := .payload { seqno := 1, header_size := 2, payload_size := 3,
                          src_addr := 0, dst_addr := 1 } } : Event) ≠
      { due_time := 3, target := Target.terminal 0, kind := .timeout 9 } := by
  refine ⟨by decide, ?_, by decide⟩
  unfold Event.cmpRust cmpTime EventKind.cmpRust
  decide

/-! ### Claim C3: scheduler pop/add contract -/

/-- C3: `pop` returns `none` exactly on the empty queue, and otherwise
removes and returns an event minimal under the scheduler order
(ascending `due_time`, `Payload` before `Timeout` at equal times); the
rest of the queue is a permutation witness that nothing else was
dropped; `add_events` inserts every given event. -/
theorem C3_scheduler_contract (s : Simulator) :
    (s.pop = none ↔ s.event_queue = []) ∧
    (∀ e s', s.pop = some (e, s') →
      e ∈ s.event_queue ∧
      s.event_queue.Perm (e :: s'.event_queue) ∧
      ∀ x ∈ s.event_queue, e.due_time < x.due_time ∨
        (e.due_time = x.due_time ∧ e.kind.weigth ≤ x.kind.weigth)) ∧
    (∀ events x, ((s.add_events events).event_queue.count x =
      s.event_queue.count x + events.count x)) := by
  refine ⟨?_, ?_, ?_⟩
  · cases hq : s.event_queue with
    | nil => simp [Simulator.pop, hq]
    | cons h t => simp [Simulator.pop, hq]
  · intro e s' hpop
    cases hq : s.event_queue with
    | nil => rw [Simulator.pop, hq] at hpop; cases hpop
    | cons h t =>
      rw [Simulator.pop, hq] at hpop
      obtain ⟨he, hs'⟩ := Prod.mk.injEq .. ▸ Option.some.injEq .. ▸ hpop
      obtain ⟨hmem, hmax⟩ := selectBest_spec t h
      have hbestmem : selectBest h t ∈ h :: t := by
        rcases hmem with h1 | h1
        · rw [h1]; exact List.mem_cons_self h t
        · exact List.mem_cons_of_mem h h1
      subst he
      refine ⟨hbestmem, ?_, ?_⟩
      · have hperm := List.perm_cons_erase hbestmem
        have hs'q : s'.event_queue = (h :: t).erase (selectBest h t) := by
          rw [← hs']
        rw [hs'q]
        exact hperm
      · intro x hx
        have hne : ¬ x.earlier (selectBest h t) :=
          hmax x (by
            rcases List.mem_cons.mp hx with h1 | h1
            · exact Or.inl h1
            · exact Or.inr h1)
        unfold Event.earlier at hne
        push_neg at hne
        rcases eq_or_lt_of_le hne.1 with h1 | h1
        · exact Or.inr ⟨h1, hne.2 h1.symm⟩
        · exact Or.inl h1
  · intro events x
    simp [Simulator.add_events, List.count_append]

def wEvA : Event :=
  { due_time := 5, target := Target.terminal 0, kind := .timeout 1 }

def wEvB : Event :=
  { due_time := 5, target := Target.terminal 0,
    kind := .payload { seqno := 1, header_size := 2, payload_size := 3,
                       src_addr := 0, dst_addr := 1 } }

/-- Witness for C3: in a queue with a `Timeout` and a `Payload` at the
same due time, pop returns the `Payload` event and only removes it. -/
theorem C3_scheduler_contract_witness :
    wEvB ∈ [wEvA, wEvB] ∧
    List.Perm [wEvA, wEvB] (wEvB :: [wEvA]) ∧
    (∀ x ∈ [wEvA, wEvB], wEvB.due_time < x.due_time ∨
      (wEvB.due_time = x.due_time ∧ wEvB.kind.weigth ≤ x.kind.weigth)) := by
  have h := (C3_scheduler_contract ⟨[wEvA, wEvB], 7⟩).2.1 wEvB ⟨[wEvA], 7⟩
    (by decide)
  exact ⟨h.1, h.2.1, h.2.2⟩

/-! ### Claim C2: the retransmission timeout formula -/

def c2Link : AttachedLink :=
  { src_addr := 0, dst_addr := 1, capacity := 8, propagation_delay := 5,
    bit_error_rate := 0, last_tx_from_src := 0, last_tx_from_dst := 0,
    counter := DataCounter.default }

def c2Pkt : Packet :=
  { seqno := 1, header_size := 1, payload_size := 1, src_addr := 0,
    dst_addr := 1 }

/-- Counterexample to C2 as stated: with capacity 8 bits/s, header 1,
payload 1 and propagation delay 5, `calc_timeout` yields 11 while the
claimed formula `tx(p) + tx(ack-sized p) + 2 × propagation_delay`
yields 13 — `calc_timeout` does not include the serialization time of
`p` itself. -/
theorem C2_calc_timeout_counterexample :
    c2Link.calc_timeout c2Pkt ≠
      c2Link.tx c2Pkt + c2Link.tx { c2Pkt with payload_size := 0 } +
        2 * c2Link.propagation_delay ∧
    c2Link.calc_timeout c2Pkt = 11 ∧
    c2Link.tx c2Pkt + c2Link.tx { c2Pkt with payload_size := 0 } +
        2 * c2Link.propagation_delay = 13 := by
  refine ⟨?_, ?_, ?_⟩ <;>
    norm_num [AttachedLink.calc_timeout, AttachedLink.tx, c2Link, c2Pkt]

/-- C2 (amended): `calc_timeout(p)` equals the serialization time of the
ack-sized packet (`p` with `payload_size = 0`) plus twice the
propagation delay; the serialization time of `p` itself is not part of
`calc_timeout`. -/
theorem C2_calc_timeout_amended (l : AttachedLink) (p : Packet) :
    l.calc_timeout p =
      l.tx { p with payload_size := 0 } + 2 * l.propagation_delay := by
  unfold AttachedLink.calc_timeout
  ring

/-! ### Claim C9: behaviour at the extreme bit error rates -/

def c9LinkOne : AttachedLink :=
  { src_addr := 0, dst_addr := 1, capacity := 8, propagation_delay := 5,
    bit_error_rate := 1, last_tx_from_src := 0, last_tx_from_dst := 0,
    counter := DataCounter.default }

def c9LinkZero : AttachedLink :=
  { c9LinkOne with bit_error_rate := 0 }

def c9Pkt : Packet :=
  { seqno := 1, header_size := 0, payload_size := 1, src_addr := 0,
    dst_addr := 1 }

/-- Counterexample to C9 as stated: with `bit_error_rate = 1` and a
one-byte packet, the draw `u = 0` — a legitimate value of a uniform
draw in `[0,1)` — makes `drop_packet` return `false`, so the delivery
branch is not unreachable. -/
theorem C9_ber_one_counterexample :
    c9LinkOne.bit_error_rate = 1 ∧
    0 < c9Pkt.header_size + c9Pkt.payload_size ∧
    (0 : ℚ) ≤ 0 ∧ (0 : ℚ) < 1 ∧
    c9LinkOne.drop_packet c9Pkt 0 = false := by
  refine ⟨rfl, by decide, le_refl 0, by norm_num, ?_⟩
  norm_num [AttachedLink.drop_packet, c9LinkOne, c9Pkt]

/-- C9 (amended): with `bit_error_rate = 0` the drop branch is
unreachable (`drop_packet` is `false` for every draw below 1); with
`bit_error_rate = 1` and a packet of at least one bit, `drop_packet` is
`true` for every draw `u > 0` — the single draw `u = 0` is the only one
that lets a packet through. -/
theorem C9_ber_extremes_amended (l : AttachedLink) (p : Packet) (u : ℚ) :
    (l.bit_error_rate = 0 → u < 1 → l.drop_packet p u = false) ∧
    (l.bit_error_rate = 1 → 0 < p.header_size + p.payload_size → 0 < u →
      l.drop_packet p u = true) := by
  constructor
  · intro hb hu
    unfold AttachedLink.drop_packet
    rw [hb]
    simp only [sub_zero, one_pow, decide_eq_false_iff_not, not_lt]
    exact hu.le
  · intro hb hp hu
    unfold AttachedLink.drop_packet
    rw [hb]
    have h8 : 8 * (p.header_size + p.payload_size) ≠ 0 := by positivity
    simp only [sub_self, zero_pow h8, decide_eq_true_eq]
    exact hu

/-- Witness for C9 (amended): at draw 1/2, a lossless link delivers and
a fully lossy link drops. -/
theorem C9_ber_extremes_amended_witness :
    c9LinkZero.drop_packet c9Pkt (1/2) = false ∧
    c9LinkOne.drop_packet c9Pkt (1/2) = true :=
  ⟨(C9_ber_extremes_amended c9LinkZero c9Pkt (1/2)).1 rfl (by norm_num),
   (C9_ber_extremes_amended c9LinkOne c9Pkt (1/2)).2 rfl (by decide)
     (by norm_num)⟩

/-- Reduction of `AttachedLink::process` on a `Payload` event: the entry
counters always advance, and the drop decision picks the branch. -/
theorem link_process_payload_eq (l : AttachedLink) (p : Packet) (e : Event)
    (now u : ℚ) (hk : e.kind = .payload p) :
    l.process e now u =
      if l.drop_packet p u then
        some ({ l with counter := l.counter.received_packet p }, [])
      else
        some ({ l with counter :=
                  (l.counter.received_packet p).delivered_packet p },
          [{ due_time := now + l.propagation_delay
             target := Target.terminal p.dst_addr
             kind := .payload p }]) := by
  unfold AttachedLink.process
  rw [hk]
  rfl

/-! ### Claim C1: determinism of corruption decisions -/

def c1Link : AttachedLink :=
  { src_addr := 0, dst_addr := 1, capacity := 8, propagation_delay := 1,
    bit_error_rate := 1/2, last_tx_from_src := 0, last_tx_from_dst := 0,
    counter := DataCounter.default }

def c1Pkt : Packet :=
  { seqno := 1, header_size := 0, payload_size := 1, src_addr := 0,
    dst_addr := 1 }

def c1Ev : Event :=
  { due_time := 0, target := Target.link 2, kind := .payload c1Pkt }

/-- C1 fails on the code: `AttachedLink::drop_packet` draws its
corruption decision from `rand::thread_rng()`, not from the seeded
`Pcg64Mcg` built by `Simulator::from_seed`.  With every seed-determined
input fixed (same link, same event, same clock — nothing here depends on
`Simulator.rng`), two legitimate thread-local draws in `[0,1)` give a
delivery in one run and a drop in the other, so the link counters and
the produced events differ. -/
theorem C1_corruption_draw_not_seed_determined :
    (0 : ℚ) ≤ 0 ∧ (0 : ℚ) < 1 ∧ (0 : ℚ) ≤ 1/2 ∧ (1/2 : ℚ) < 1 ∧
    (c1Link.process c1Ev 0 0).map Prod.snd =
      some [{ due_time := 1, target := Target.terminal 1,
              kind := .payload c1Pkt }] ∧
    (c1Link.process c1Ev 0 (1/2)).map Prod.snd = some [] ∧
    (Simulator.from_seed 42).rng = (Simulator.from_seed 42).rng := by
  refine ⟨le_refl 0, by norm_num, by norm_num, by norm_num, ?_, ?_, rfl⟩
  · have hdrop : c1Link.drop_packet c1Pkt 0 = false := by
      norm_num [AttachedLink.drop_packet, c1Link, c1Pkt]
    rw [link_process_payload_eq c1Link c1Pkt c1Ev 0 0 rfl, hdrop]
    simp [c1Link, c1Pkt]
  · have hdrop : c1Link.drop_packet c1Pkt (1/2) = true := by
      norm_num [AttachedLink.drop_packet, c1Link, c1Pkt]
    rw [link_process_payload_eq c1Link c1Pkt c1Ev 0 (1/2) rfl, hdrop]
    simp

/-! ### Claim C4: link processing of a Payload event -/

/-- C4: processing `Payload(p)` at the link advances the entry counters
unconditionally; the packet survives exactly when the draw satisfies
`u ≤ (1 − ber)^(8(h+p))`, in which case the delivery counters advance by
the same amounts and exactly one `Payload(p)` event due at
`now + propagation_delay` and targeted at `p.dst_addr` is emitted;
otherwise nothing is emitted and the delivery counters are unchanged. -/
theorem C4_link_payload_processing (l : AttachedLink) (p : Packet)
    (e : Event) (now u : ℚ) (hk : e.kind = .payload p)
    (h0 : 0 ≤ u) (h1 : u < 1) :
    (u ≤ (1 - l.bit_error_rate) ^ (8 * (p.header_size + p.payload_size)) →
      l.process e now u = some
        ({ l with counter :=
            { raw_received :=
                l.counter.raw_received + (p.header_size + p.payload_size)
              good_received := l.counter.good_received + p.payload_size
              raw_delivered :=
                l.counter.raw_delivered + (p.header_size + p.payload_size)
              good_delivered :=
                l.counter.good_delivered + p.payload_size } },
          [{ due_time := now + l.propagation_delay
             target := Target.terminal p.dst_addr
             kind := .payload p }])) ∧
    ((1 - l.bit_error_rate) ^ (8 * (p.header_size + p.payload_size)) < u →
      l.process e now u = some
        ({ l with counter :=
            { l.counter with
              raw_received :=
                l.counter.raw_received + (p.header_size + p.payload_size)
              good_received := l.counter.good_received + p.payload_size } },
          [])) := by
  constructor
  · intro hsurvive
    have hdrop : l.drop_packet p u = false := by
      unfold AttachedLink.drop_packet
      simp only [decide_eq_false_iff_not, not_lt]
      exact hsurvive
    rw [link_process_payload_eq l p e now u hk, hdrop]
    simp [DataCounter.received_packet, DataCounter.delivered_packet,
      rawBytes, goodBytes]
  · intro hdropped
    have hdrop : l.drop_packet p u = true := by
      unfold AttachedLink.drop_packet
      simp only [decide_eq_true_eq]
      exact hdropped
    rw [link_process_payload_eq l p e now u hk, hdrop]
    simp [DataCounter.received_packet, rawBytes, goodBytes]

def c4Link : AttachedLink :=
  { src_addr := 0, dst_addr := 1, capacity := 8, propagation_delay := 2,
    bit_error_rate := 0, last_tx_from_src := 0, last_tx_from_dst := 0,
    counter := { raw_received := 10, good_received := 4, raw_delivered := 6,
                 good_delivered := 2 } }

def c4Pkt : Packet :=
  { seqno := 3, header_size := 1, payload_size := 2, src_addr := 0,
    dst_addr := 1 }

def c4Ev : Event :=
  { due_time := 0, target := Target.link 2, kind := .payload c4Pkt }

/-- Witness for C4: on a lossless link the draw 0 delivers, advancing
both checkpoints and emitting the delayed delivery event. -/
theorem C4_link_payload_processing_witness :
    c4Link.process c4Ev 7 0 = some
      ({ c4Link with counter :=
          { raw_received := 13, good_received := 6, raw_delivered := 9,
            good_delivered := 4 } },
        [{ due_time := 9, target := Target.terminal 1,
           kind := .payload c4Pkt }]) := by
  have h := (C4_link_payload_processing c4Link c4Pkt c4Ev 7 0 rfl
    (le_refl 0) (by norm_num)).1 (by norm_num [c4Link, c4Pkt])
  rw [h]
  norm_num [c4Link, c4Pkt]

/-! ### Claim C5: ACK processing at the terminal -/

/-- C5: a zero-payload `Payload(p)` is ignored (state and output
unchanged) unless `last_acked < p.seqno ≤ last_sent`; on acceptance
`last_acked` becomes `p.seqno`, one transmission is produced for each
sequence number in `(old last_sent, p.seqno + tx_window]` (none had
been sent, all being above `last_sent`), and `last_sent` becomes
`p.seqno + tx_window`. -/
theorem C5_ack_processing (t : AttachedTerminal) (p : Packet) (e : Event)
    (now : Time) (link : AttachedLink) (hk : e.kind = .payload p)
    (hp : p.payload_size = 0) :
    (¬ (t.last_acked < p.seqno ∧ p.seqno ≤ t.last_sent) →
      t.process e now link = (t, [])) ∧
    (t.last_acked < p.seqno → p.seqno ≤ t.last_sent →
      (t.process e now link).1.last_acked = p.seqno ∧
      (t.process e now link).1.last_sent = p.seqno + t.tx_window ∧
      (t.process e now link).2.filterMap linkPayloadSeqno =
        List.range' (t.last_sent + 1) (p.seqno + t.tx_window - t.last_sent)) := by
  have hdispatch : t.process e now link = t.process_ack p now link := by
    unfold AttachedTerminal.process
    rw [hk]
    simp [hp]
  constructor
  · intro hrej
    rw [hdispatch]
    unfold AttachedTerminal.process_ack
    rw [if_neg hrej]
  · intro h₁ h₂
    rw [hdispatch]
    unfold AttachedTerminal.process_ack
    rw [if_pos ⟨h₁, h₂⟩]
    obtain ⟨f1, f2, f3, f4⟩ := transmitRun_fields
      (List.range' (t.last_sent + 1) (p.seqno + t.tx_window - t.last_sent))
      { t with last_acked := p.seqno } p.src_addr now t.payload_size link
    refine ⟨?_, ?_, ?_⟩
    · simpa using f1
    · simp [f1, f4]
    · exact transmitRun_filterMap _ _ _ _ _ _

def c5Terminal : AttachedTerminal :=
  { addr := 0, header_size := 4, payload_size := 10, tx_window := 3,
    link_addr := 2, last_acked := 0, last_sent := 3, last_recv := 0,
    last_tx_sched := 0 }

def c5Link : AttachedLink :=
  { src_addr := 0, dst_addr := 1, capacity := 80, propagation_delay := 1,
    bit_error_rate := 0, last_tx_from_src := 0, last_tx_from_dst := 0,
    counter := DataCounter.default }

def c5Ack : Packet :=
  { seqno := 2, header_size := 4, payload_size := 0, src_addr := 1,
    dst_addr := 0 }

def c5Ev : Event :=
  { due_time := 0, target := Target.terminal 0, kind := .payload c5Ack }

/-- Witness for C5: an ack for seqno 2 inside the window `(0, 3]` slides
the window to `(2, 5]` and transmits exactly seqnos 4 and 5. -/
theorem C5_ack_processing_witness :
    (c5Terminal.process c5Ev 0 c5Link).1.last_acked = 2 ∧
    (c5Terminal.process c5Ev 0 c5Link).1.last_sent = 5 ∧
    (c5Terminal.process c5Ev 0 c5Link).2.filterMap linkPayloadSeqno =
      [4, 5] := by
  have h := (C5_ack_processing c5Terminal c5Ack c5Ev 0 c5Link rfl rfl).2
    (by decide) (by decide)
  refine ⟨h.1, h.2.1, ?_⟩
  rw [h.2.2]
  rfl

/-! ### Claim C6: DATA processing at the terminal -/

/-- The zero-payload acknowledgment a receiving terminal sends back for
an accepted data packet `p` (the packet built by `transmit(p.seqno,
p.src_addr, now, 0, link)`). -/
def ackPacket (t : AttachedTerminal) (p : Packet) : Packet :=
  { seqno := p.seqno, header_size := t.header_size, payload_size := 0,
    src_addr := t.addr, dst_addr := p.src_addr }

/-- C6: a DATA `Payload(p)` (`payload_size > 0`) is accepted exactly
when `p.seqno ≤ last_recv + 1`; on acceptance `last_recv` becomes
`max last_recv p.seqno` and exactly one zero-payload ACK carrying
`seqno = p.seqno` is transmitted back to the sender; a packet with
`seqno > last_recv + 1` is dropped with no ack and no state change. -/
theorem C6_data_processing (t : AttachedTerminal) (p : Packet) (e : Event)
    (now : Time) (link : AttachedLink) (hk : e.kind = .payload p)
    (hp : 0 < p.payload_size) :
    (p.seqno ≤ t.last_recv + 1 →
      t.process e now link =
        ({ t with
            last_recv := max t.last_recv p.seqno
            last_tx_sched :=
              max now t.last_tx_sched + link.tx (ackPacket t p) },
          [{ due_time := max now t.last_tx_sched + link.tx (ackPacket t p)
             target := Target.link t.link_addr
             kind := .payload (ackPacket t p) }])) ∧
    (t.last_recv + 1 < p.seqno → t.process e now link = (t, [])) := by
  have hdispatch : t.process e now link = t.process_data p now link := by
    unfold AttachedTerminal.process
    rw [hk]
    simp [Nat.pos_iff_ne_zero.mp hp]
  constructor
  · intro hacc
    rw [hdispatch]
    unfold AttachedTerminal.process_data
    rw [if_pos hacc]
    rfl
  · intro hrej
    rw [hdispatch]
    unfold AttachedTerminal.process_data
    rw [if_neg (Nat.not_le.mpr hrej)]

def c6Terminal : AttachedTerminal :=
  { addr := 1, header_size := 4, payload_size := 0, tx_window := 3,
    link_addr := 2, last_acked := 0, last_sent := 3, last_recv := 1,
    last_tx_sched := 0 }

def c6Data : Packet :=
  { seqno := 2, header_size := 4, payload_size := 10, src_addr := 0,
    dst_addr := 1 }

def c6Ev : Event :=
  { due_time := 0, target := Target.terminal 1, kind := .payload c6Data }

/-- Witness for C6: the in-order data packet seqno 2 advances
`last_recv` to 2 and produces exactly one zero-payload ack for seqno 2
toward the sender. -/
theorem C6_data_processing_witness :
    c6Terminal.process c6Ev 3 c5Link =
      ({ c6Terminal with
          last_recv := 2
          last_tx_sched := 3 + c5Link.tx (ackPacket c6Terminal c6Data) },
        [{ due_time := 3 + c5Link.tx (ackPacket c6Terminal c6Data)
           target := Target.link 2
           kind := .payload (ackPacket c6Terminal c6Data) }]) := by
  have h := (C6_data_processing c6Terminal c6Data c6Ev 3 c5Link rfl
    (by decide)).1 (by decide)
  rw [h]
  norm_num [c6Terminal, c6Data]

/-! ### Claim C7: the window invariant -/

/-- Every `process` call preserves the exact window relation
`last_sent = last_acked + tx_window`. -/
theorem process_preserves_window (t : AttachedTerminal) (e : Event)
    (now : Time) (link : AttachedLink)
    (h : t.last_sent = t.last_acked + t.tx_window) :
    (t.process e now link).1.last_sent =
      (t.process e now link).1.last_acked +
        (t.process e now link).1.tx_window := by
  obtain ⟨dt, tgt, k⟩ := e
  cases k with
  | payload p =>
    by_cases hz : p.payload_size = 0
    · have hdis : AttachedTerminal.process t ⟨dt, tgt, .payload p⟩ now link =
          t.process_ack p now link := by
        unfold AttachedTerminal.process
        simp [hz]
      rw [hdis]
      unfold AttachedTerminal.process_ack
      by_cases hc : t.last_acked < p.seqno ∧ p.seqno ≤ t.last_sent
      · rw [if_pos hc]
      · rw [if_neg hc]
        exact h
    · have hdis : AttachedTerminal.process t ⟨dt, tgt, .payload p⟩ now link =
          t.process_data p now link := by
        unfold AttachedTerminal.process
        simp [hz]
      rw [hdis]
      unfold AttachedTerminal.process_data
      by_cases hc : p.seqno ≤ t.last_recv + 1
      · rw [if_pos hc]
        obtain ⟨-, f2, -, f4, -⟩ := transmit_fields
          { t with last_recv := max t.last_recv p.seqno } p.seqno p.src_addr
          now 0 link
        rw [f2, f4]
        exact h
      · rw [if_neg hc]
        exact h
  | timeout s =>
    have hdis : AttachedTerminal.process t ⟨dt, tgt, .timeout s⟩ now link =
        t.process_timeout (t.get_dst_address link) s now link := rfl
    rw [hdis]
    unfold AttachedTerminal.process_timeout
    by_cases hc : t.last_acked < s
    · rw [if_pos hc]
      obtain ⟨-, f2, -, f4, -⟩ := transmit_fields t s
        (t.get_dst_address link) now t.payload_size link
      rw [f2, f4]
      exact h
    · rw [if_neg hc]
      exact h

/-- C7: every terminal state reachable from `attach_to_link` by
arbitrary `process` calls satisfies `last_acked ≤ last_sent` and
`last_sent − last_acked ≤ tx_window` (in fact the difference always
equals `tx_window`). -/
theorem C7_window_invariant (t : AttachedTerminal)
    (h : ReachableTerminal t) :
    t.last_acked ≤ t.last_sent ∧
      t.last_sent - t.last_acked ≤ t.tx_window := by
  have key : t.last_sent = t.last_acked + t.tx_window := by
    induction h with
    | init term a la => simp [Terminal.attach_to_link]
    | step t e now link ht ih => exact process_preserves_window t e now link ih
  constructor
  · rw [key]
    exact Nat.le_add_right _ _
  · rw [key]
    simp

/-- Witness for C7: the invariant holds at the concrete initial state
of a terminal with window 3. -/
theorem C7_window_invariant_witness :
    ((Terminal.create 4 10 3).attach_to_link 0 2).last_acked ≤
      ((Terminal.create 4 10 3).attach_to_link 0 2).last_sent ∧
    ((Terminal.create 4 10 3).attach_to_link 0 2).last_sent -
        ((Terminal.create 4 10 3).attach_to_link 0 2).last_acked ≤
      ((Terminal.create 4 10 3).attach_to_link 0 2).tx_window :=
  C7_window_invariant _ (ReachableTerminal.init (Terminal.create 4 10 3) 0 2)

/-! ### Claim C8: Timeout processing -/

/-- The packet retransmitted by a genuine timeout for `seqno`: the full
configured payload, addressed to the link's other endpoint. -/
def retxPacket (t : AttachedTerminal) (seqno : Nat)
    (link : AttachedLink) : Packet :=
  { seqno, header_size := t.header_size, payload_size := t.payload_size,
    src_addr := t.addr, dst_addr := t.get_dst_address link }

/-- C8: a `Timeout(seqno)` with `seqno ≤ last_acked` produces no events
and leaves the whole terminal unchanged; with `seqno > last_acked` it
retransmits exactly that seqno with the full configured payload toward
the link's other endpoint (a link-bound `Payload` event, plus a fresh
timer when the payload is nonempty). -/
theorem C8_timeout_processing (t : AttachedTerminal) (e : Event)
    (seqno : Nat) (now : Time) (link : AttachedLink)
    (hk : e.kind = .timeout seqno) :
    (seqno ≤ t.last_acked → t.process e now link = (t, [])) ∧
    (t.last_acked < seqno →
      t.process e now link =
        ({ t with
            last_tx_sched :=
              max now t.last_tx_sched + link.tx (retxPacket t seqno link) },
          (if 0 < t.payload_size then
            [{ due_time :=
                 (max now t.last_tx_sched +
                   link.tx (retxPacket t seqno link)) +
                   link.calc_timeout (retxPacket t seqno link)
               target := Target.terminal t.addr
               kind := .timeout seqno }]
          else []) ++
          [{ due_time :=
               max now t.last_tx_sched + link.tx (retxPacket t seqno link)
             target := Target.link t.link_addr
             kind := .payload (retxPacket t seqno link) }])) := by
  have hdis : t.process e now link =
      t.process_timeout (t.get_dst_address link) seqno now link := by
    unfold AttachedTerminal.process
    rw [hk]
  constructor
  · intro hstale
    rw [hdis]
    unfold AttachedTerminal.process_timeout
    rw [if_neg (Nat.not_lt.mpr hstale)]
  · intro hlive
    rw [hdis]
    unfold AttachedTerminal.process_timeout
    rw [if_pos hlive]
    rfl

def c8Terminal : AttachedTerminal :=
  { addr := 0, header_size := 4, payload_size := 10, tx_window := 3,
    link_addr := 2, last_acked := 2, last_sent := 5, last_recv := 0,
    last_tx_sched := 0 }

def c8EvStale : Event :=
  { due_time := 0, target := Target.terminal 0, kind := .timeout 2 }

def c8EvLive : Event :=
  { due_time := 0, target := Target.terminal 0, kind := .timeout 4 }

/-- Witness for C8: the stale timeout for seqno 2 is a no-op; the live
timeout for seqno 4 retransmits seqno 4 with the full 10-byte payload
toward terminal 1 and re-arms its timer. -/
theorem C8_timeout_processing_witness :
    c8Terminal.process c8EvStale 9 c5Link = (c8Terminal, []) ∧
    c8Terminal.process c8EvLive 0 c5Link =
      ({ c8Terminal with last_tx_sched := 7/5 },
        [{ due_time := 19/5, target := Target.terminal 0,
           kind := .timeout 4 },
         { due_time := 7/5, target := Target.link 2,
           kind := .payload { seqno := 4, header_size := 4,
                              payload_size := 10, src_addr := 0,
                              dst_addr := 1 } }]) := by
  constructor
  · exact (C8_timeout_processing c8Terminal c8EvStale 2 9 c5Link rfl).1
      (by decide)
  · have h := (C8_timeout_processing c8Terminal c8EvLive 4 0 c5Link rfl).2
      (by decide)
    rw [h]
    norm_num [c8Terminal, retxPacket, AttachedTerminal.get_dst_address,
      AttachedLink.tx, AttachedLink.calc_timeout, c5Link]
